import Mathlib

/-!
Shallow embedding of `src/utils/utils.py` from the LIF-RC-demo repository.

The Python module contains two dictionary-based label/code conversions and
four matplotlib plotting helpers.  Pure lookups are embedded as association
lists with a `KeyError`-style `Except`; each plotting helper is embedded as a
pure function producing the ordered list of drawing commands it issues to the
plotting library (a trace), since the Python functions return `None` and act
only by side effect on the figure.  Numeric samples are carried as `Int`
(claims concern only structure, labels, colors and lengths, never arithmetic
on the samples).
-/

set_option autoImplicit false

namespace LIFRC

/-- Python exception kinds raised by the code paths modelled here. -/
inductive PyErr
  | keyError
  | attributeError
  | typeError
  | indexError
  deriving DecidableEq

/-- Python dictionary lookup `d[k]`: first matching key, else `KeyError`. -/
def dictGet {ν : Type} : List (String × ν) → String → Except PyErr ν
  | [], _ => Except.error PyErr.keyError
  | p :: rest, k => if k == p.1 then Except.ok p.2 else dictGet rest k

/-- The dict literal `int_to_str` of `reservoir_dict_to_str` (utils.py lines 21-26),
as an association list in source order, keys as `Int`. -/
def int_to_str : List (Int × String) :=
  [(0, "Timesteps"), (1, "Input Current"), (2, "Membrane Potential"), (3, "Spikes")]

/-- Integer-keyed dictionary lookup, as `dictGet`. -/
def dictGetI {ν : Type} : List (Int × ν) → Int → Except PyErr ν
  | [], _ => Except.error PyErr.keyError
  | p :: rest, k => if k == p.1 then Except.ok p.2 else dictGetI rest k

/-- `reservoir_dict_to_str` (utils.py lines 4-27): `return int_to_str[input]`.
Pure: builds a local dict and indexes it, no other effect. -/
def reservoir_dict_to_str (input : Int) : Except PyErr String :=
  dictGetI int_to_str input

/-- The dict literal `str_to_int` of `reservoir_dict_to_int` (utils.py lines 44-49). -/
def str_to_int : List (String × Int) :=
  [("Timesteps", 0), ("Input Current", 1), ("Membrane Potential", 2), ("Spikes", 3)]

/-- `reservoir_dict_to_int` (utils.py lines 30-50): `return str_to_int[input]`.
Pure: builds a local dict and indexes it, no other effect. -/
def reservoir_dict_to_int (input : String) : Except PyErr Int :=
  dictGet str_to_int input

/-- The four valid labels, in code order 0..3. -/
def validLabels : List String :=
  ["Timesteps", "Input Current", "Membrane Potential", "Spikes"]

/-- The four valid integer codes. -/
def validCodes : List Int := [0, 1, 2, 3]

/-- Drawing commands issued through the module-level `plt` interface by
`plot_reservoir_data`, `plot_reservoir_activations` and
`plot_reservoir_predictions`.  `plotL` records the data sequence passed to
`plt.plot` together with its `label=` and `color=` keyword arguments
(`none` when the keyword is not supplied); `plot2D` records a 2-D array
passed to `plt.plot`. -/
inductive PltEvent
  | figure
  | title (s : String)
  | xlabel (s : String)
  | ylabel (s : String)
  | plotL (data : List Int) (lbl : String) (color : Option String)
  | plot2D (m : List (List Int))
  | legend
  | showIt
  deriving DecidableEq

/-- `plot_reservoir_data` (utils.py lines 53-69): plots `x_train[:50]` and
`y_train[:50]` with formatted labels, shows a legend, then the chart. -/
def plot_reservoir_data (x_train y_train : List Int)
    (reservoir_input_feature reservoir_target : String) : List PltEvent :=
  [PltEvent.plotL (x_train.take 50) ("Reservoir input: " ++ reservoir_input_feature) none,
   PltEvent.plotL (y_train.take 50) ("Reservoir target: " ++ reservoir_target) none,
   PltEvent.legend,
   PltEvent.showIt]

/-- `plot_reservoir_activations` (utils.py lines 72-88): new figure, fixed
title and axis labels, then `plt.plot(reservoir_states[:, :20])` — the numpy
slice keeps every row and the first 20 columns — then shows the chart. -/
def plot_reservoir_activations (reservoir_states : List (List Int)) : List PltEvent :=
  [PltEvent.figure,
   PltEvent.title "Activation of 20 reservoir neurons.",
   PltEvent.ylabel "Reservoir activations",
   PltEvent.xlabel "Timesteps",
   PltEvent.plot2D (reservoir_states.map (fun row => row.take 20)),
   PltEvent.showIt]

/-- `plot_reservoir_predictions` (utils.py lines 91-116): new figure, fixed
title and x-label, then three `plt.plot` calls — `x_train[:70]` in green,
`y_pred` (untruncated) in blue, `y_train[:70]` in red — a legend and the
chart. -/
def plot_reservoir_predictions (x_train y_train y_pred : List Int)
    (reservoir_input_feature reservoir_target : String) : List PltEvent :=
  [PltEvent.figure,
   PltEvent.title "Comparing real data with the reservoirs prediction.",
   PltEvent.xlabel "Timesteps",
   PltEvent.plotL (x_train.take 70) ("Reservoir input: " ++ reservoir_input_feature)
     (some "green"),
   PltEvent.plotL y_pred ("Predicted " ++ reservoir_target) (some "blue"),
   PltEvent.plotL (y_train.take 70) ("Actual " ++ reservoir_target) (some "red"),
   PltEvent.legend,
   PltEvent.showIt]

/-- The line traces a trace of `plt` commands draws: the payload of every
`plotL` event, in order, as (data, label, color). -/
def plotTraces (evs : List PltEvent) : List (List Int × String × Option String) :=
  evs.filterMap (fun e =>
    match e with
    | PltEvent.plotL data lbl color => some (data, lbl, color)
    | _ => none)

/-- Matplotlib semantics of `plt.plot` on a 2-D array: one line trace per
column.  Column `j` collects the `j`-th entry of every row; the number of
columns is read off the (rectangular) array's rows. -/
def tracesOf2D (m : List (List Int)) : List (List Int) :=
  (List.range (m.headD []).length).map (fun j => m.filterMap (fun row => row[j]?))

/-- Boolean-mask selection: the values of `vs` at the `true` positions of
`mask` (the semantics of tensor indexing `t[mask]`). -/
def maskFilter (vs : List Int) (mask : List Bool) : List Int :=
  ((vs.zip mask).filter (fun p => p.2)).map (fun p => p.1)

/-- A caller-supplied sequence as seen by `plot_results`' dynamic code: either
a torch-style tensor of samples, or a plain Python list of samples (which
lacks `.bool()` and boolean-mask indexing). -/
inductive PySeq
  | tensor (vals : List Int)
  | pylist (vals : List Int)
  deriving DecidableEq

/-- The `.bool()` method call on line 166/203 (`spikes.bool()`): a tensor
yields the truthiness mask of its entries; a plain list has no such
attribute, so the call raises `AttributeError`. -/
def PySeq.boolMethod : PySeq → Except PyErr (List Bool)
  | PySeq.tensor vs => Except.ok (vs.map (fun v => v != 0))
  | PySeq.pylist _ => Except.error PyErr.attributeError

/-- Boolean-mask indexing `time[mask]` on line 166/203: a tensor selects the
entries at `true` positions (an `IndexError` if the mask length differs); a
plain Python list indexed by a list raises `TypeError`. -/
def PySeq.maskIndex : PySeq → List Bool → Except PyErr (List Int)
  | PySeq.tensor vs, mask =>
      if mask.length = vs.length then Except.ok (maskFilter vs mask)
      else Except.error PyErr.indexError
  | PySeq.pylist _, _ => Except.error PyErr.typeError

/-- One value of the `results` dict: the 4-tuple
`(time, input_current, membrane_potential, spikes)`. -/
structure SimResult where
  time : PySeq
  input_current : PySeq
  membrane_potential : PySeq
  spikes : PySeq
  deriving DecidableEq

/-- One value of the `param_sets` dict: an object exposing `v_threshold`. -/
structure ParamSet where
  v_threshold : Int
  deriving DecidableEq

/-- Axis-level drawing commands issued by `plot_results` on a subplot.
`plotXY x y` is `ax.plot(x, y)`; `plotY y` is `ax.plot(y)` (implicit sample
index on the x-axis); `vlines xs lo hi c` is `ax.vlines(xs, lo, hi, color=c)`
with `lo`/`hi` the y-limits read off the axis when the call is made. -/
inductive AxEvent
  | set_title (s : String)
  | plotXY (x y : PySeq)
  | plotY (y : PySeq)
  | set_xlabel (s : String)
  | set_ylabel (s : String)
  | axhline (y : Int) (color linestyle lbl : String)
  | legend (loc : Option String)
  | vlines (xs : List Int) (lo hi : Int) (color : String)
  deriving DecidableEq

/-- Figure-level trace of `plot_results`: axis commands tagged with the
subplot grid position `(row, col)`, plus `plt.tight_layout()` and
`plt.show()`. -/
inductive TEvent
  | ax (row col : Nat) (e : AxEvent)
  | tightLayout
  | showFig
  deriving DecidableEq

/-- The axis-command history of subplot `(row, col)` within a figure trace,
in order (the state `ax.get_ylim()` is a function of). -/
def axEventsAt (row col : Nat) (tr : List TEvent) : List AxEvent :=
  tr.filterMap (fun ev =>
    match ev with
    | TEvent.ax r c e => if r = row ∧ c = col then some e else none
    | _ => none)

/-- A y-limit oracle: matplotlib autoscales each axis's y-limits from what
has been drawn on it, so `get_ylim` is modelled as an uninterpreted function
of the axis's command history. -/
def YlimOracle : Type := List AxEvent → Int × Int

/-- The body of the `num_sets == 1` loop of `plot_results` (utils.py lines
140-174), run on the single `(label, (time, input_current,
membrane_potential, spikes))` item: the commands issued in source order,
stopping (with the Python exception) at the first failing expression.  The
`param_sets[label]` lookup happens while evaluating the first `axhline`
call's arguments, after both `plot` calls. -/
def stepRowSingle (param_sets : List (String × ParamSet)) (ylim : YlimOracle)
    (label : String) (r : SimResult) : List TEvent × Option PyErr :=
  let part1 : List TEvent :=
    [TEvent.ax 0 0 (AxEvent.set_title (label ++ " - Input Current")),
     TEvent.ax 0 0 (AxEvent.plotXY r.time r.input_current),
     TEvent.ax 0 0 (AxEvent.set_xlabel "Timesteps"),
     TEvent.ax 0 0 (AxEvent.set_ylabel "Current"),
     TEvent.ax 0 1 (AxEvent.set_title (label ++ " - Membrane Potential")),
     TEvent.ax 0 1 (AxEvent.plotXY r.time r.membrane_potential)]
  match dictGet param_sets label with
  | Except.error e => (part1, some e)
  | Except.ok p =>
    let part2 : List TEvent := part1 ++
      [TEvent.ax 0 1 (AxEvent.axhline p.v_threshold "r" "--" "Threshold"),
       TEvent.ax 0 1 (AxEvent.set_xlabel "Timesteps"),
       TEvent.ax 0 1 (AxEvent.set_ylabel "Voltage"),
       TEvent.ax 0 1 (AxEvent.legend none)]
    match r.spikes.boolMethod with
    | Except.error e => (part2, some e)
    | Except.ok mask =>
      match r.time.maskIndex mask with
      | Except.error e => (part2, some e)
      | Except.ok spike_times =>
        let yl := ylim (axEventsAt 0 1 part2)
        (part2 ++ [TEvent.ax 0 1 (AxEvent.vlines spike_times yl.1 yl.2 "r")], none)

/-- The body of the `else` loop of `plot_results` (utils.py lines 176-211)
for row `i`, given the trace `prior` already issued by earlier rows: the
commands in source order, stopping at the first failing expression.  As in
the single case, `param_sets[label]` is evaluated after both `plot` calls;
the multi-row branch additionally draws the `RP` resting-potential line and
places the legend upper right. -/
def stepRowMulti (param_sets : List (String × ParamSet)) (ylim : YlimOracle)
    (i : Nat) (label : String) (r : SimResult) (prior : List TEvent) :
    List TEvent × Option PyErr :=
  let part1 : List TEvent :=
    [TEvent.ax i 0 (AxEvent.set_title (label ++ " - Input Current")),
     TEvent.ax i 0 (AxEvent.plotY r.input_current),
     TEvent.ax i 0 (AxEvent.set_xlabel "Timesteps"),
     TEvent.ax i 0 (AxEvent.set_ylabel "Current"),
     TEvent.ax i 1 (AxEvent.set_title (label ++ " - Membrane Potential")),
     TEvent.ax i 1 (AxEvent.plotY r.membrane_potential)]
  match dictGet param_sets label with
  | Except.error e => (part1, some e)
  | Except.ok p =>
    let part2 : List TEvent := part1 ++
      [TEvent.ax i 1 (AxEvent.axhline p.v_threshold "r" "--" "Threshold"),
       TEvent.ax i 1 (AxEvent.axhline 0 "grey" "--" "RP"),
       TEvent.ax i 1 (AxEvent.set_xlabel "Timesteps"),
       TEvent.ax i 1 (AxEvent.set_ylabel "Membrane Potential"),
       TEvent.ax i 1 (AxEvent.legend (some "upper right"))]
    match r.spikes.boolMethod with
    | Except.error e => (part2, some e)
    | Except.ok mask =>
      match r.time.maskIndex mask with
      | Except.error e => (part2, some e)
      | Except.ok spike_times =>
        let yl := ylim (axEventsAt i 1 (prior ++ part2))
        (part2 ++ [TEvent.ax i 1 (AxEvent.vlines spike_times yl.1 yl.2 "r")], none)

/-- The `else` loop of `plot_results` over the remaining rows, threading the
row index and the trace issued so far; on success the figure is finished
with `tight_layout` and `show`. -/
def plotResultsGo (param_sets : List (String × ParamSet)) (ylim : YlimOracle) :
    Nat → List (String × SimResult) → List TEvent → List TEvent × Option PyErr
  | _, [], acc => (acc ++ [TEvent.tightLayout, TEvent.showFig], none)
  | i, (label, r) :: rest, acc =>
    match stepRowMulti param_sets ylim i label r acc with
    | (evs, some e) => (acc ++ evs, some e)
    | (evs, none) => plotResultsGo param_sets ylim (i + 1) rest (acc ++ evs)

/-- `plot_results` (utils.py lines 119-214).  `results` is the (insertion-
ordered) dict as an association list; `ylim` models the autoscaled
`get_ylim`.  Returns the trace of drawing commands issued before returning
or raising, and the exception if one was raised (Python leaves the partially
drawn figure in place, so the trace up to the failure point is kept). -/
def plot_results (results : List (String × SimResult))
    (param_sets : List (String × ParamSet)) (ylim : YlimOracle) :
    List TEvent × Option PyErr :=
  match results with
  | [(label, r)] =>
    match stepRowSingle param_sets ylim label r with
    | (evs, some e) => (evs, some e)
    | (evs, none) => (evs ++ [TEvent.tightLayout, TEvent.showFig], none)
  | _ => plotResultsGo param_sets ylim 0 results []

/-- A row's data is tensor-typed with a spikes mask matching the time axis —
the shape `plot_results` needs to reach its `vlines` call. -/
def wellTypedRow (r : SimResult) : Bool :=
  match r.time, r.spikes with
  | PySeq.tensor tv, PySeq.tensor sv => sv.length == tv.length
  | _, _ => false

/-- The spike times `time[spikes.bool()]` of a (tensor-typed) row. -/
def spikeTimes (r : SimResult) : List Int :=
  match r.time, r.spikes with
  | PySeq.tensor tv, PySeq.tensor sv => maskFilter tv (sv.map (fun v => v != 0))
  | _, _ => []

/-- The axis-command history of the membrane-potential subplot at the moment
`get_ylim` is read in the single-row branch: everything the branch has drawn
on `axs[1]` before `vlines`. -/
def mpAxisPreSingle (label : String) (r : SimResult) (p : ParamSet) : List AxEvent :=
  [AxEvent.set_title (label ++ " - Membrane Potential"),
   AxEvent.plotXY r.time r.membrane_potential,
   AxEvent.axhline p.v_threshold "r" "--" "Threshold",
   AxEvent.set_xlabel "Timesteps",
   AxEvent.set_ylabel "Voltage",
   AxEvent.legend none]

/-- The axis-command history of the membrane-potential subplot at the moment
`get_ylim` is read in the multi-row branch: everything the branch has drawn
on `axs[i, 1]` before `vlines`. -/
def mpAxisPreMulti (label : String) (r : SimResult) (p : ParamSet) : List AxEvent :=
  [AxEvent.set_title (label ++ " - Membrane Potential"),
   AxEvent.plotY r.membrane_potential,
   AxEvent.axhline p.v_threshold "r" "--" "Threshold",
   AxEvent.axhline 0 "grey" "--" "RP",
   AxEvent.set_xlabel "Timesteps",
   AxEvent.set_ylabel "Membrane Potential",
   AxEvent.legend (some "upper right")]

/-- The complete trace of a successful single-branch row: what
`stepRowSingle` issues when the parameter lookup hits and the row data is
tensor-typed. -/
def rowFullSingle (ylim : YlimOracle) (label : String) (r : SimResult) (p : ParamSet) :
    List TEvent :=
  [TEvent.ax 0 0 (AxEvent.set_title (label ++ " - Input Current")),
   TEvent.ax 0 0 (AxEvent.plotXY r.time r.input_current),
   TEvent.ax 0 0 (AxEvent.set_xlabel "Timesteps"),
   TEvent.ax 0 0 (AxEvent.set_ylabel "Current"),
   TEvent.ax 0 1 (AxEvent.set_title (label ++ " - Membrane Potential")),
   TEvent.ax 0 1 (AxEvent.plotXY r.time r.membrane_potential),
   TEvent.ax 0 1 (AxEvent.axhline p.v_threshold "r" "--" "Threshold"),
   TEvent.ax 0 1 (AxEvent.set_xlabel "Timesteps"),
   TEvent.ax 0 1 (AxEvent.set_ylabel "Voltage"),
   TEvent.ax 0 1 (AxEvent.legend none),
   TEvent.ax 0 1 (AxEvent.vlines (spikeTimes r)
     (ylim (mpAxisPreSingle label r p)).1 (ylim (mpAxisPreSingle label r p)).2 "r")]

/-- The complete trace of a successful multi-branch row `i` (when no earlier
row touched subplot `(i, 1)`, which `plot_results` guarantees). -/
def rowFullMulti (ylim : YlimOracle) (i : Nat) (label : String) (r : SimResult)
    (p : ParamSet) : List TEvent :=
  [TEvent.ax i 0 (AxEvent.set_title (label ++ " - Input Current")),
   TEvent.ax i 0 (AxEvent.plotY r.input_current),
   TEvent.ax i 0 (AxEvent.set_xlabel "Timesteps"),
   TEvent.ax i 0 (AxEvent.set_ylabel "Current"),
   TEvent.ax i 1 (AxEvent.set_title (label ++ " - Membrane Potential")),
   TEvent.ax i 1 (AxEvent.plotY r.membrane_potential),
   TEvent.ax i 1 (AxEvent.axhline p.v_threshold "r" "--" "Threshold"),
   TEvent.ax i 1 (AxEvent.axhline 0 "grey" "--" "RP"),
   TEvent.ax i 1 (AxEvent.set_xlabel "Timesteps"),
   TEvent.ax i 1 (AxEvent.set_ylabel "Membrane Potential"),
   TEvent.ax i 1 (AxEvent.legend (some "upper right")),
   TEvent.ax i 1 (AxEvent.vlines (spikeTimes r)
     (ylim (mpAxisPreMulti label r p)).1 (ylim (mpAxisPreMulti label r p)).2 "r")]

/-- The trace issued by the multi-row branch for rows `i, i+1, ...` when
every parameter lookup hits (the `none` case is unreachable then). -/
def multiTrace (param_sets : List (String × ParamSet)) (ylim : YlimOracle) :
    Nat → List (String × SimResult) → List TEvent
  | _, [] => []
  | i, (label, r) :: rest =>
    match dictGet param_sets label with
    | Except.ok p => rowFullMulti ylim i label r p ++ multiTrace param_sets ylim (i + 1) rest
    | Except.error _ => []

/-- A concrete, fully tensor-typed row used to instantiate theorems with
hypotheses. -/
def demoRow : SimResult :=
  { time := PySeq.tensor [0, 1, 2],
    input_current := PySeq.tensor [5, 6, 7],
    membrane_potential := PySeq.tensor [1, 2, 3],
    spikes := PySeq.tensor [0, 1, 0] }

/-- A row whose `spikes` is a plain Python list (no `.bool()` method). -/
def listSpikesRow : SimResult :=
  { time := PySeq.tensor [0, 1, 2],
    input_current := PySeq.tensor [5, 6, 7],
    membrane_potential := PySeq.tensor [1, 2, 3],
    spikes := PySeq.pylist [0, 1, 0] }

/-- A concrete parameter record. -/
def demoParams : ParamSet := { v_threshold := 4 }

/-- A concrete y-limit oracle. -/
def ylimZero : YlimOracle := fun _ => (0, 1)

/-! ## Theorems -/

/-- A column of a grid in which every row is longer than `j` has one entry
per row. -/
theorem filterMap_getElem_length (j : Nat) :
    ∀ m : List (List Int), (∀ row ∈ m, j < row.length) →
      (m.filterMap (fun row => row[j]?)).length = m.length := by
  intro m
  induction m with
  | nil => intro _; rfl
  | cons row rest ih =>
    intro h
    have hj : j < row.length := h row (List.mem_cons_self _ _)
    have hrow : row[j]? = some row[j] := List.getElem?_eq_getElem hj
    simp [List.filterMap_cons, hrow, ih (fun r hr => h r (List.mem_cons_of_mem _ hr))]

/-- C1: for every one of the four valid labels `L`,
`codeToLabel(labelToCode(L)) == L`, and for every valid code `C` in
`{0,1,2,3}`, `labelToCode(codeToLabel(C)) == C`.  (Both functions are pure
Lean functions here, mirroring the side-effect-free Python lookups.) -/
theorem label_code_roundtrip :
    (∀ l ∈ validLabels, (reservoir_dict_to_int l).bind reservoir_dict_to_str = Except.ok l) ∧
    (∀ c ∈ validCodes, (reservoir_dict_to_str c).bind reservoir_dict_to_int = Except.ok c) := by
  constructor
  · intro l hl
    fin_cases hl <;> rfl
  · intro c hc
    fin_cases hc <;> rfl

/-- Witness for C1 at the concrete label `"Spikes"` and code `2`. -/
theorem label_code_roundtrip_spot :
    (reservoir_dict_to_int "Spikes").bind reservoir_dict_to_str = Except.ok "Spikes" ∧
    (reservoir_dict_to_str 2).bind reservoir_dict_to_int = Except.ok 2 :=
  ⟨label_code_roundtrip.1 "Spikes" (by decide), label_code_roundtrip.2 2 (by decide)⟩

/-- C9: `labelToCode` maps exactly Timesteps↦0, Input Current↦1,
Membrane Potential↦2, Spikes↦3, and `codeToLabel` maps 0..3 back to exactly
those strings: the mapping is total and fixed on the four-element domains. -/
theorem label_code_mapping :
    reservoir_dict_to_int "Timesteps" = Except.ok 0 ∧
    reservoir_dict_to_int "Input Current" = Except.ok 1 ∧
    reservoir_dict_to_int "Membrane Potential" = Except.ok 2 ∧
    reservoir_dict_to_int "Spikes" = Except.ok 3 ∧
    reservoir_dict_to_str 0 = Except.ok "Timesteps" ∧
    reservoir_dict_to_str 1 = Except.ok "Input Current" ∧
    reservoir_dict_to_str 2 = Except.ok "Membrane Potential" ∧
    reservoir_dict_to_str 3 = Except.ok "Spikes" :=
  ⟨rfl, rfl, rfl, rfl, rfl, rfl, rfl, rfl⟩

/-- C4: `labelToCode` raises `KeyError` (the UnknownLabel error) on every
string outside the four fixed labels, and `codeToLabel` raises `KeyError`
(the UnknownCode error) on every integer outside `{0,1,2,3}`. -/
theorem unknown_label_code :
    (∀ s : String, s ∉ validLabels → reservoir_dict_to_int s = Except.error PyErr.keyError) ∧
    (∀ c : Int, c ∉ validCodes → reservoir_dict_to_str c = Except.error PyErr.keyError) := by
  constructor
  · intro s hs
    simp only [validLabels, List.mem_cons, List.not_mem_nil, or_false] at hs
    push_neg at hs
    obtain ⟨h1, h2, h3, h4⟩ := hs
    simp [reservoir_dict_to_int, dictGet, str_to_int, h1, h2, h3, h4]
  · intro c hc
    simp only [validCodes, List.mem_cons, List.not_mem_nil, or_false] at hc
    push_neg at hc
    obtain ⟨h1, h2, h3, h4⟩ := hc
    simp [reservoir_dict_to_str, dictGetI, int_to_str, h1, h2, h3, h4]

/-- Witness for C4 at the inputs named by the spec: `labelToCode("bogus")`
and `codeToLabel(99)`. -/
theorem unknown_label_code_spot :
    reservoir_dict_to_int "bogus" = Except.error PyErr.keyError ∧
    reservoir_dict_to_str 99 = Except.error PyErr.keyError :=
  ⟨unknown_label_code.1 "bogus" (by decide), unknown_label_code.2 99 (by decide)⟩

/-- C7: `plot_reservoir_data` draws exactly the first `min(50, length)`
samples of `x_train` and `y_train` as two traces labelled
`"Reservoir input: ..."` and `"Reservoir target: ..."`, for sequences of any
length (shorter sequences draw what is available; the function is total and
returns nothing but its drawing effect). -/
theorem plot_reservoir_data_traces (x_train y_train : List Int) (fi tg : String) :
    plotTraces (plot_reservoir_data x_train y_train fi tg) =
      [(x_train.take 50, "Reservoir input: " ++ fi, none),
       (y_train.take 50, "Reservoir target: " ++ tg, none)] ∧
    (x_train.take 50).length = min 50 x_train.length ∧
    (y_train.take 50).length = min 50 y_train.length := by
  refine ⟨rfl, by simp, by simp⟩

/-- C6: `plot_reservoir_predictions` draws exactly three traces — the first
`min(70, length)` samples of `x_train` in green, all of `y_pred`
(untruncated, whatever its length) in blue, and the first `min(70, length)`
samples of `y_train` in red — for inputs of any length, with no error. -/
theorem plot_reservoir_predictions_traces (x_train y_train y_pred : List Int)
    (fi tg : String) :
    plotTraces (plot_reservoir_predictions x_train y_train y_pred fi tg) =
      [(x_train.take 70, "Reservoir input: " ++ fi, some "green"),
       (y_pred, "Predicted " ++ tg, some "blue"),
       (y_train.take 70, "Actual " ++ tg, some "red")] ∧
    (x_train.take 70).length = min 70 x_train.length ∧
    (y_train.take 70).length = min 70 y_train.length := by
  refine ⟨rfl, by simp, by simp⟩

/-- C8: `plot_reservoir_activations` on an `R × C` grid passes
`reservoir_states[:, :20]` to `plt.plot`, which draws exactly `min 20 C`
traces, each containing all `R` row samples — with no error when fewer than
20 columns exist. -/
theorem plot_reservoir_activations_traces (m : List (List Int)) (C : Nat)
    (hne : m ≠ []) (hC : ∀ row ∈ m, row.length = C) :
    PltEvent.plot2D (m.map (fun row => row.take 20)) ∈ plot_reservoir_activations m ∧
    (tracesOf2D (m.map (fun row => row.take 20))).length = min 20 C ∧
    ∀ t ∈ tracesOf2D (m.map (fun row => row.take 20)), t.length = m.length := by
  rcases m with _ | ⟨r0, rest⟩
  · exact absurd rfl hne
  have h0 : r0.length = C := hC r0 (by simp)
  refine ⟨by simp [plot_reservoir_activations], ?_, ?_⟩
  · simp [tracesOf2D, h0]
  · intro t ht
    simp only [tracesOf2D, List.mem_map, List.mem_range] at ht
    obtain ⟨j, hj, rfl⟩ := ht
    have hjC : j < min 20 C := by
      simpa [h0] using hj
    have hlen : ∀ row ∈ (r0 :: rest).map (fun row => row.take 20), j < row.length := by
      intro row hrow
      simp only [List.mem_map] at hrow
      obtain ⟨row0, hrow0, rfl⟩ := hrow
      have hr0 := hC row0 hrow0
      simp only [List.length_take, hr0]
      omega
    rw [filterMap_getElem_length j _ hlen, List.length_map]

/-- Witness for C8 on the (30 rows, 5 columns) grid named by the spec:
5 traces, each of length 30. -/
theorem plot_reservoir_activations_spot :
    PltEvent.plot2D ((List.replicate 30 ([1, 2, 3, 4, 5] : List Int)).map
        (fun row => row.take 20)) ∈
      plot_reservoir_activations (List.replicate 30 [1, 2, 3, 4, 5]) ∧
    (tracesOf2D ((List.replicate 30 ([1, 2, 3, 4, 5] : List Int)).map
        (fun row => row.take 20))).length = min 20 5 ∧
    ∀ t ∈ tracesOf2D ((List.replicate 30 ([1, 2, 3, 4, 5] : List Int)).map
        (fun row => row.take 20)),
      t.length = (List.replicate 30 ([1, 2, 3, 4, 5] : List Int)).length :=
  plot_reservoir_activations_traces (List.replicate 30 [1, 2, 3, 4, 5]) 5
    (by decide) (by decide)

/-- `dictGet` only ever raises `KeyError`. -/
theorem dictGet_error {ν : Type} : ∀ (d : List (String × ν)) (k : String) (e : PyErr),
    dictGet d k = Except.error e → e = PyErr.keyError := by
  intro d
  induction d with
  | nil =>
    intro k e h
    simp only [dictGet, Except.error.injEq] at h
    exact h.symm
  | cons p rest ih =>
    intro k e h
    simp only [dictGet] at h
    split at h
    · simp at h
    · exact ih k e h

/-- Unpacking `wellTypedRow`. -/
theorem wellTypedRow_spec (r : SimResult) (h : wellTypedRow r = true) :
    ∃ tv sv, r.time = PySeq.tensor tv ∧ r.spikes = PySeq.tensor sv ∧
      sv.length = tv.length := by
  rcases htv : r.time with tv | tv <;> rcases hsv : r.spikes with sv | sv <;>
      simp only [wellTypedRow, htv, hsv] at h
  · exact ⟨tv, sv, rfl, rfl, by simpa using h⟩
  all_goals cases h

/-- `axEventsAt` distributes over trace concatenation. -/
theorem axEventsAt_append (row col : Nat) (a b : List TEvent) :
    axEventsAt row col (a ++ b) = axEventsAt row col a ++ axEventsAt row col b := by
  simp [axEventsAt]

/-- A trace touching only other subplot rows leaves an axis history empty. -/
theorem axEventsAt_eq_nil (row col : Nat) (tr : List TEvent)
    (h : ∀ j c e, TEvent.ax j c e ∈ tr → j ≠ row) :
    axEventsAt row col tr = [] := by
  induction tr with
  | nil => rfl
  | cons ev rest ih =>
    have hrest := ih (fun j c e he => h j c e (List.mem_cons_of_mem _ he))
    cases ev with
    | ax j c e =>
      have hj : j ≠ row := h j c e (List.mem_cons_self _ _)
      simpa [axEventsAt, List.filterMap_cons, hj] using hrest
    | tightLayout => simpa [axEventsAt, List.filterMap_cons] using hrest
    | showFig => simpa [axEventsAt, List.filterMap_cons] using hrest

/-- A successful single-branch row issues exactly `rowFullSingle`. -/
theorem stepRowSingle_ok (param_sets : List (String × ParamSet)) (ylim : YlimOracle)
    (label : String) (r : SimResult) (p : ParamSet)
    (hp : dictGet param_sets label = Except.ok p) (hwt : wellTypedRow r = true) :
    stepRowSingle param_sets ylim label r = (rowFullSingle ylim label r p, none) := by
  obtain ⟨tv, sv, htv, hsv, hlen⟩ := wellTypedRow_spec r hwt
  simp [stepRowSingle, hp, htv, hsv, PySeq.boolMethod, PySeq.maskIndex, hlen,
    rowFullSingle, spikeTimes, axEventsAt, mpAxisPreSingle]

/-- A successful multi-branch row whose subplot row is untouched by the
prior trace issues exactly `rowFullMulti`. -/
theorem stepRowMulti_ok (param_sets : List (String × ParamSet)) (ylim : YlimOracle)
    (i : Nat) (label : String) (r : SimResult) (p : ParamSet) (prior : List TEvent)
    (hp : dictGet param_sets label = Except.ok p) (hwt : wellTypedRow r = true)
    (hprior : axEventsAt i 1 prior = []) :
    stepRowMulti param_sets ylim i label r prior = (rowFullMulti ylim i label r p, none) := by
  obtain ⟨tv, sv, htv, hsv, hlen⟩ := wellTypedRow_spec r hwt
  simp only [axEventsAt] at hprior
  simp [stepRowMulti, hp, htv, hsv, PySeq.boolMethod, PySeq.maskIndex, hlen,
    rowFullMulti, spikeTimes, hprior, axEventsAt, mpAxisPreMulti]

/-- A multi-branch row that returned no exception had tensor-typed `time`
and `spikes` (it survived `spikes.bool()` and `time[mask]`). -/
theorem stepRowMulti_none_tensors (param_sets : List (String × ParamSet))
    (ylim : YlimOracle) (i : Nat) (label : String) (r : SimResult) (prior : List TEvent)
    (h : (stepRowMulti param_sets ylim i label r prior).2 = none) :
    (∃ tv, r.time = PySeq.tensor tv) ∧ ∃ sv, r.spikes = PySeq.tensor sv := by
  rcases hd : dictGet param_sets label with e | p
  · simp [stepRowMulti, hd] at h
  · rcases htv : r.time with tv | tv <;> rcases hsv : r.spikes with sv | sv
    · exact ⟨⟨tv, rfl⟩, ⟨sv, rfl⟩⟩
    · simp [stepRowMulti, hd, htv, hsv, PySeq.boolMethod] at h
    · simp [stepRowMulti, hd, htv, hsv, PySeq.boolMethod, PySeq.maskIndex] at h
    · simp [stepRowMulti, hd, htv, hsv, PySeq.boolMethod] at h

/-- Same for the single-branch row body. -/
theorem stepRowSingle_none_tensors (param_sets : List (String × ParamSet))
    (ylim : YlimOracle) (label : String) (r : SimResult)
    (h : (stepRowSingle param_sets ylim label r).2 = none) :
    (∃ tv, r.time = PySeq.tensor tv) ∧ ∃ sv, r.spikes = PySeq.tensor sv := by
  rcases hd : dictGet param_sets label with e | p
  · simp [stepRowSingle, hd] at h
  · rcases htv : r.time with tv | tv <;> rcases hsv : r.spikes with sv | sv
    · exact ⟨⟨tv, rfl⟩, ⟨sv, rfl⟩⟩
    · simp [stepRowSingle, hd, htv, hsv, PySeq.boolMethod] at h
    · simp [stepRowSingle, hd, htv, hsv, PySeq.boolMethod, PySeq.maskIndex] at h
    · simp [stepRowSingle, hd, htv, hsv, PySeq.boolMethod] at h

/-- Every event of `rowFullMulti` sits on subplot row `i`. -/
theorem rowFullMulti_rows (ylim : YlimOracle) (i : Nat) (label : String)
    (r : SimResult) (p : ParamSet) :
    ∀ ev ∈ rowFullMulti ylim i label r p, ∃ c e, ev = TEvent.ax i c e := by
  intro ev hev
  simp only [rowFullMulti, List.mem_cons, List.not_mem_nil, or_false] at hev
  rcases hev with rfl | rfl | rfl | rfl | rfl | rfl | rfl | rfl | rfl | rfl | rfl | rfl <;>
    exact ⟨_, _, rfl⟩

/-- Every `ax` event of `multiTrace` from `base` on sits on row `base` or
later. -/
theorem multiTrace_rows (param_sets : List (String × ParamSet)) (ylim : YlimOracle) :
    ∀ (rows : List (String × SimResult)) (base j c : Nat) (e : AxEvent),
      TEvent.ax j c e ∈ multiTrace param_sets ylim base rows → base ≤ j := by
  intro rows
  induction rows with
  | nil => intro base j c e h; simp [multiTrace] at h
  | cons hd rest ih =>
    intro base j c e h
    rcases hd with ⟨label, r⟩
    rcases hdg : dictGet param_sets label with q | p
    · simp [multiTrace, hdg] at h
    · simp only [multiTrace, hdg, List.mem_append] at h
      rcases h with h | h
      · obtain ⟨c', e', he⟩ := rowFullMulti_rows ylim base label r p _ h
        cases he
        exact Nat.le_refl _
      · exact Nat.le_of_succ_le (ih (base + 1) j c e h)

/-- A row's trace contributes nothing to another row's axis history. -/
theorem axEventsAt_rowFullMulti_ne (ylim : YlimOracle) (i j col : Nat) (label : String)
    (r : SimResult) (p : ParamSet) (h : i ≠ j) :
    axEventsAt j col (rowFullMulti ylim i label r p) = [] := by
  apply axEventsAt_eq_nil
  intro j' c' e' he
  obtain ⟨c'', e'', heq⟩ := rowFullMulti_rows ylim i label r p _ he
  cases heq
  exact h

/-- The input-current axis history of one full multi-branch row. -/
theorem axEventsAt_rowFullMulti_ic (ylim : YlimOracle) (i : Nat) (label : String)
    (r : SimResult) (p : ParamSet) :
    axEventsAt i 0 (rowFullMulti ylim i label r p) =
      [AxEvent.set_title (label ++ " - Input Current"),
       AxEvent.plotY r.input_current,
       AxEvent.set_xlabel "Timesteps",
       AxEvent.set_ylabel "Current"] := by
  simp [axEventsAt, rowFullMulti]

/-- The membrane-potential axis history of one full multi-branch row. -/
theorem axEventsAt_rowFullMulti_mp (ylim : YlimOracle) (i : Nat) (label : String)
    (r : SimResult) (p : ParamSet) :
    axEventsAt i 1 (rowFullMulti ylim i label r p) =
      mpAxisPreMulti label r p ++
        [AxEvent.vlines (spikeTimes r)
          (ylim (mpAxisPreMulti label r p)).1 (ylim (mpAxisPreMulti label r p)).2 "r"] := by
  simp [axEventsAt, rowFullMulti, mpAxisPreMulti]

/-- The membrane-potential axis history of one full single-branch row. -/
theorem axEventsAt_rowFullSingle_mp (ylim : YlimOracle) (label : String)
    (r : SimResult) (p : ParamSet) :
    axEventsAt 0 1 (rowFullSingle ylim label r p) =
      mpAxisPreSingle label r p ++
        [AxEvent.vlines (spikeTimes r)
          (ylim (mpAxisPreSingle label r p)).1 (ylim (mpAxisPreSingle label r p)).2 "r"] := by
  simp [axEventsAt, rowFullSingle, mpAxisPreSingle]

/-- On well-typed rows with every parameter lookup hitting, the multi-row
loop runs to completion and issues exactly `multiTrace` plus the figure
finalisation. -/
theorem plotResultsGo_spec (param_sets : List (String × ParamSet)) (ylim : YlimOracle) :
    ∀ (rows : List (String × SimResult)) (base : Nat) (acc : List TEvent),
      (∀ e ∈ rows, wellTypedRow e.2 = true) →
      (∀ e ∈ rows, ∃ p, dictGet param_sets e.1 = Except.ok p) →
      (∀ j c e, TEvent.ax j c e ∈ acc → j < base) →
      plotResultsGo param_sets ylim base rows acc =
        (acc ++ multiTrace param_sets ylim base rows ++
          [TEvent.tightLayout, TEvent.showFig], none) := by
  intro rows
  induction rows with
  | nil =>
    intro base acc _ _ _
    simp [plotResultsGo, multiTrace]
  | cons hd rest ih =>
    intro base acc hwt hp hacc
    rcases hd with ⟨label, r⟩
    obtain ⟨p, hpl⟩ := hp _ (List.mem_cons_self _ _)
    have hwtl := hwt _ (List.mem_cons_self _ _)
    have hprior : axEventsAt base 1 acc = [] :=
      axEventsAt_eq_nil _ _ _ (fun j c e he => Nat.ne_of_lt (hacc j c e he))
    have hacc' : ∀ j c e,
        TEvent.ax j c e ∈ acc ++ rowFullMulti ylim base label r p → j < base + 1 := by
      intro j c e he
      rcases List.mem_append.mp he with h | h
      · exact Nat.lt_succ_of_lt (hacc j c e h)
      · obtain ⟨c', e', heq⟩ := rowFullMulti_rows ylim base label r p _ h
        cases heq
        exact Nat.lt_succ_self _
    simp only [plotResultsGo,
      stepRowMulti_ok param_sets ylim base label r p acc hpl hwtl hprior]
    rw [ih (base + 1) (acc ++ rowFullMulti ylim base label r p)
      (fun e he => hwt e (List.mem_cons_of_mem _ he))
      (fun e he => hp e (List.mem_cons_of_mem _ he)) hacc']
    simp [multiTrace, hpl, List.append_assoc]

/-- The axis histories of row `k` inside `multiTrace` come from that row's
`rowFullMulti` alone. -/
theorem multiTrace_axis (param_sets : List (String × ParamSet)) (ylim : YlimOracle)
    (col : Nat) :
    ∀ (rows : List (String × SimResult)) (base k : Nat) (hk : k < rows.length)
      (p : ParamSet),
      (∀ e ∈ rows, ∃ q, dictGet param_sets e.1 = Except.ok q) →
      dictGet param_sets (rows.get ⟨k, hk⟩).1 = Except.ok p →
      axEventsAt (base + k) col (multiTrace param_sets ylim base rows) =
        axEventsAt (base + k) col
          (rowFullMulti ylim (base + k) (rows.get ⟨k, hk⟩).1 (rows.get ⟨k, hk⟩).2 p) := by
  intro rows
  induction rows with
  | nil =>
    intro base k hk
    exact absurd hk (by simp)
  | cons hd rest ih =>
    intro base k hk p hall hpk
    rcases hd with ⟨label, r⟩
    obtain ⟨q, hq⟩ := hall _ (List.mem_cons_self _ _)
    cases k with
    | zero =>
      have hq' : q = p := by
        simp only [List.get] at hpk
        rw [hq] at hpk
        exact (Except.ok.injEq _ _).mp hpk
      subst hq'
      have hrest : axEventsAt base col
          (multiTrace param_sets ylim (base + 1) rest) = [] := by
        apply axEventsAt_eq_nil
        intro j c e he
        have := multiTrace_rows param_sets ylim rest (base + 1) j c e he
        omega
      simp [multiTrace, hq, axEventsAt_append, hrest]
    | succ k' =>
      have hk' : k' < rest.length := by simpa using hk
      have hhead : axEventsAt (base + (k' + 1)) col
          (rowFullMulti ylim base label r q) = [] :=
        axEventsAt_rowFullMulti_ne ylim base (base + (k' + 1)) col label r q (by omega)
      have hih := ih (base + 1) k' hk' p
        (fun e he => hall e (List.mem_cons_of_mem _ he)) (by simpa using hpk)
      have harith : base + 1 + k' = base + (k' + 1) := by omega
      rw [harith] at hih
      simp only [multiTrace, hq, axEventsAt_append, hhead, List.nil_append]
      simpa using hih

/-- When some label is missing from `param_sets` and every row before it is
well typed, the multi-row loop stops with `KeyError` and never reaches
`plt.show()`. -/
theorem plotResultsGo_missing (param_sets : List (String × ParamSet)) (ylim : YlimOracle) :
    ∀ (rows : List (String × SimResult)) (base : Nat) (acc : List TEvent),
      (∀ e ∈ rows, wellTypedRow e.2 = true) →
      (∃ e ∈ rows, dictGet param_sets e.1 = Except.error PyErr.keyError) →
      (∀ j c e, TEvent.ax j c e ∈ acc → j < base) →
      TEvent.showFig ∉ acc →
      (plotResultsGo param_sets ylim base rows acc).2 = some PyErr.keyError ∧
      TEvent.showFig ∉ (plotResultsGo param_sets ylim base rows acc).1 := by
  intro rows
  induction rows with
  | nil =>
    intro base acc _ hmiss _ _
    obtain ⟨e, he, _⟩ := hmiss
    simp at he
  | cons hd rest ih =>
    intro base acc hwt hmiss hacc hsf
    rcases hd with ⟨label, r⟩
    rcases hdg : dictGet param_sets label with e | p
    · have he : e = PyErr.keyError := dictGet_error param_sets label e hdg
      subst he
      constructor
      · simp [plotResultsGo, stepRowMulti, hdg]
      · simp only [plotResultsGo, stepRowMulti, hdg]
        intro hmem
        rcases List.mem_append.mp hmem with h | h
        · exact hsf h
        · simp at h
    · have hwtl := hwt _ (List.mem_cons_self _ _)
      have hprior : axEventsAt base 1 acc = [] :=
        axEventsAt_eq_nil _ _ _ (fun j c e he => Nat.ne_of_lt (hacc j c e he))
      have hmiss' : ∃ e ∈ rest, dictGet param_sets e.1 = Except.error PyErr.keyError := by
        obtain ⟨ent, hent, herr⟩ := hmiss
        rcases List.mem_cons.mp hent with rfl | h
        · simp only at herr
          rw [hdg] at herr
          cases herr
        · exact ⟨ent, h, herr⟩
      have hacc' : ∀ j c e,
          TEvent.ax j c e ∈ acc ++ rowFullMulti ylim base label r p → j < base + 1 := by
        intro j c e he
        rcases List.mem_append.mp he with h | h
        · exact Nat.lt_succ_of_lt (hacc j c e h)
        · obtain ⟨c', e', heq⟩ := rowFullMulti_rows ylim base label r p _ h
          cases heq
          exact Nat.lt_succ_self _
      have hsf' : TEvent.showFig ∉ acc ++ rowFullMulti ylim base label r p := by
        intro hmem
        rcases List.mem_append.mp hmem with h | h
        · exact hsf h
        · obtain ⟨c', e', heq⟩ := rowFullMulti_rows ylim base label r p _ h
          simp at heq
      simp only [plotResultsGo,
        stepRowMulti_ok param_sets ylim base label r p acc hdg hwtl hprior]
      exact ih (base + 1) (acc ++ rowFullMulti ylim base label r p)
        (fun e he => hwt e (List.mem_cons_of_mem _ he)) hmiss' hacc' hsf'

/-- A multi-row loop that finished without an exception had tensor-typed
`time` and `spikes` in every row. -/
theorem plotResultsGo_none_tensors (param_sets : List (String × ParamSet))
    (ylim : YlimOracle) :
    ∀ (rows : List (String × SimResult)) (base : Nat) (acc : List TEvent),
      (plotResultsGo param_sets ylim base rows acc).2 = none →
      ∀ e ∈ rows,
        (∃ tv, e.2.time = PySeq.tensor tv) ∧ ∃ sv, e.2.spikes = PySeq.tensor sv := by
  intro rows
  induction rows with
  | nil =>
    intro base acc _ e he
    simp at he
  | cons hd rest ih =>
    intro base acc h e he
    rcases hd with ⟨label, r⟩
    rcases hstep : stepRowMulti param_sets ylim base label r acc with ⟨evs, err⟩
    cases err with
    | some e' =>
      simp only [plotResultsGo, hstep] at h
      cases h
    | none =>
      simp only [plotResultsGo, hstep] at h
      rcases List.mem_cons.mp he with rfl | hrest
      · exact stepRowMulti_none_tensors param_sets ylim base label r acc (by rw [hstep])
      · exact ih (base + 1) (acc ++ evs) h e hrest

/-- `plot_results` on two or more rows is the multi-row loop from row 0. -/
theorem plot_results_cons_cons (a b : String × SimResult) (t : List (String × SimResult))
    (param_sets : List (String × ParamSet)) (ylim : YlimOracle) :
    plot_results (a :: b :: t) param_sets ylim =
      plotResultsGo param_sets ylim 0 (a :: b :: t) [] := by
  rcases a with ⟨la, ra⟩
  rfl

/-- C2 counterexample: with one entry whose label is absent from
`param_sets`, the call does fail with `KeyError`, but drawing has already
happened before the failure — the input-current plot command was issued to
the figure.  So the failure is not "before any drawing". -/
theorem plot_results_missing_param_after_drawing :
    (plot_results [("A", demoRow)] [] ylimZero).2 = some PyErr.keyError ∧
    TEvent.ax 0 0 (AxEvent.plotXY (PySeq.tensor [0, 1, 2]) (PySeq.tensor [5, 6, 7])) ∈
      (plot_results [("A", demoRow)] [] ylimZero).1 := by
  decide

/-- C2 (amended): when some label in `results` has no entry in `param_sets`
(and the rows are tensor-typed so no earlier exception preempts the lookup),
the call fails with `KeyError` (the MissingParameterRecord error) and the
failure occurs before any chart is displayed — `plt.show()` is never
reached — although drawing commands issued before the failing lookup have
already been performed on the figure. -/
theorem plot_results_missing_param (results : List (String × SimResult))
    (param_sets : List (String × ParamSet)) (ylim : YlimOracle)
    (hwt : ∀ e ∈ results, wellTypedRow e.2 = true)
    (hmiss : ∃ e ∈ results, dictGet param_sets e.1 = Except.error PyErr.keyError) :
    (plot_results results param_sets ylim).2 = some PyErr.keyError ∧
    TEvent.showFig ∉ (plot_results results param_sets ylim).1 := by
  rcases results with _ | ⟨⟨label, r⟩, rest⟩
  · obtain ⟨e, he, _⟩ := hmiss
    simp at he
  rcases rest with _ | ⟨b, t⟩
  · have hlab : dictGet param_sets label = Except.error PyErr.keyError := by
      obtain ⟨ent, hent, herr⟩ := hmiss
      rcases List.mem_singleton.mp hent with rfl
      simpa using herr
    constructor
    · simp [plot_results, stepRowSingle, hlab]
    · simp [plot_results, stepRowSingle, hlab]
  · rw [plot_results_cons_cons]
    exact plotResultsGo_missing param_sets ylim ((label, r) :: b :: t) 0 [] hwt hmiss
      (fun j c e he => absurd he (List.not_mem_nil _)) (List.not_mem_nil _)

/-- Witness for the amended C2 on a concrete one-entry call with an empty
`param_sets`. -/
theorem plot_results_missing_param_spot :
    (plot_results [("B", demoRow)] [] ylimZero).2 = some PyErr.keyError ∧
    TEvent.showFig ∉ (plot_results [("B", demoRow)] [] ylimZero).1 :=
  plot_results_missing_param [("B", demoRow)] [] ylimZero (by decide)
    ⟨("B", demoRow), by simp, rfl⟩

/-- C3: with one entry, the input-current subplot plots `input_current`
against the explicit `time` values (`ax.plot(time, input_current)`); with two
or more entries, each row's input-current subplot plots `input_current`
alone, against the implicit sample index (`ax.plot(input_current)`), and no
two-argument plot appears on it. -/
theorem plot_results_input_current_axes (results : List (String × SimResult))
    (param_sets : List (String × ParamSet)) (ylim : YlimOracle)
    (hwt : ∀ e ∈ results, wellTypedRow e.2 = true)
    (hp : ∀ e ∈ results, ∃ p, dictGet param_sets e.1 = Except.ok p) :
    (∀ label r, results = [(label, r)] →
      axEventsAt 0 0 (plot_results results param_sets ylim).1 =
        [AxEvent.set_title (label ++ " - Input Current"),
         AxEvent.plotXY r.time r.input_current,
         AxEvent.set_xlabel "Timesteps",
         AxEvent.set_ylabel "Current"]) ∧
    (2 ≤ results.length →
      ∀ k (hk : k < results.length),
        axEventsAt k 0 (plot_results results param_sets ylim).1 =
          [AxEvent.set_title ((results.get ⟨k, hk⟩).1 ++ " - Input Current"),
           AxEvent.plotY (results.get ⟨k, hk⟩).2.input_current,
           AxEvent.set_xlabel "Timesteps",
           AxEvent.set_ylabel "Current"]) := by
  constructor
  · rintro label r rfl
    obtain ⟨p, hpl⟩ := hp _ (List.mem_cons_self _ _)
    have hwtl := hwt _ (List.mem_cons_self _ _)
    simp only [plot_results, stepRowSingle_ok param_sets ylim label r p hpl hwtl]
    simp [axEventsAt, rowFullSingle]
  · intro h2 k hk
    rcases results with _ | ⟨a, rest⟩
    · simp at h2
    rcases rest with _ | ⟨b, t⟩
    · simp at h2
    rw [plot_results_cons_cons,
      plotResultsGo_spec param_sets ylim (a :: b :: t) 0 [] hwt hp
        (fun j c e he => absurd he (List.not_mem_nil _))]
    obtain ⟨p, hpl⟩ := hp _ (List.get_mem (a :: b :: t) k hk)
    have hmt := multiTrace_axis param_sets ylim 0 (a :: b :: t) 0 k hk p hp hpl
    rw [Nat.zero_add] at hmt
    have htl : axEventsAt k 0 [TEvent.tightLayout, TEvent.showFig] = [] := by
      simp [axEventsAt]
    simp only [List.nil_append]
    rw [axEventsAt_append, htl, List.append_nil, hmt, axEventsAt_rowFullMulti_ic]

/-- Witness for C3 on a concrete single-entry call. -/
theorem plot_results_input_current_axes_spot :
    axEventsAt 0 0 (plot_results [("A", demoRow)] [("A", demoParams)] ylimZero).1 =
      [AxEvent.set_title ("A" ++ " - Input Current"),
       AxEvent.plotXY demoRow.time demoRow.input_current,
       AxEvent.set_xlabel "Timesteps",
       AxEvent.set_ylabel "Current"] :=
  (plot_results_input_current_axes [("A", demoRow)] [("A", demoParams)] ylimZero
    (by decide)
    (by
      intro e he
      rcases List.mem_singleton.mp he with rfl
      exact ⟨demoParams, rfl⟩)).1 "A" demoRow rfl

/-- C5: in every row, in both branches, the membrane-potential subplot's
history ends with exactly one `vlines` command whose x-positions are exactly
the `time` values at the truthy (non-zero) `spikes` entries and whose bounds
are the y-limits the subplot has at that moment (the `ylim` oracle applied
to everything drawn on that subplot so far); no earlier `vlines` exists on
that subplot. -/
theorem plot_results_spike_markers (results : List (String × SimResult))
    (param_sets : List (String × ParamSet)) (ylim : YlimOracle)
    (hwt : ∀ e ∈ results, wellTypedRow e.2 = true)
    (hp : ∀ e ∈ results, ∃ p, dictGet param_sets e.1 = Except.ok p) :
    ∀ k (hk : k < results.length) tv sv,
      (results.get ⟨k, hk⟩).2.time = PySeq.tensor tv →
      (results.get ⟨k, hk⟩).2.spikes = PySeq.tensor sv →
      ∃ pre : List AxEvent,
        axEventsAt k 1 (plot_results results param_sets ylim).1 =
          pre ++ [AxEvent.vlines (maskFilter tv (sv.map (fun v => v != 0)))
            (ylim pre).1 (ylim pre).2 "r"] ∧
        ∀ xs lo hi c, AxEvent.vlines xs lo hi c ∉ pre := by
  intro k hk tv sv htv hsv
  rcases results with _ | ⟨⟨label, r⟩, rest⟩
  · exact absurd hk (by simp)
  rcases rest with _ | ⟨b, t⟩
  · have hk0 : k = 0 := by
      have := hk
      simp at this
      omega
    subst hk0
    obtain ⟨p, hpl⟩ := hp _ (List.mem_cons_self _ _)
    have hwtl := hwt _ (List.mem_cons_self _ _)
    refine ⟨mpAxisPreSingle label r p, ?_, by simp [mpAxisPreSingle]⟩
    simp only [plot_results, stepRowSingle_ok param_sets ylim label r p hpl hwtl]
    rw [axEventsAt_append, axEventsAt_rowFullSingle_mp]
    have hst : spikeTimes r = maskFilter tv (sv.map (fun v => v != 0)) := by
      simp only [List.get] at htv hsv
      simp [spikeTimes, htv, hsv]
    have htl : axEventsAt 0 1 [TEvent.tightLayout, TEvent.showFig] = [] := by
      simp [axEventsAt]
    rw [htl, List.append_nil, hst]
  · obtain ⟨p, hpl⟩ := hp _ (List.get_mem ((label, r) :: b :: t) k hk)
    refine ⟨mpAxisPreMulti (((label, r) :: b :: t).get ⟨k, hk⟩).1
      (((label, r) :: b :: t).get ⟨k, hk⟩).2 p, ?_, by simp [mpAxisPreMulti]⟩
    rw [plot_results_cons_cons,
      plotResultsGo_spec param_sets ylim ((label, r) :: b :: t) 0 [] hwt hp
        (fun j c e he => absurd he (List.not_mem_nil _))]
    have hmt := multiTrace_axis param_sets ylim 1 ((label, r) :: b :: t) 0 k hk p hp hpl
    rw [Nat.zero_add] at hmt
    have htl : axEventsAt k 1 [TEvent.tightLayout, TEvent.showFig] = [] := by
      simp [axEventsAt]
    have hst : spikeTimes (((label, r) :: b :: t).get ⟨k, hk⟩).2 =
        maskFilter tv (sv.map (fun v => v != 0)) := by
      simp only [List.get_eq_getElem] at htv hsv
      simp [spikeTimes, htv, hsv]
    simp only [List.nil_append]
    rw [axEventsAt_append, htl, List.append_nil, hmt, axEventsAt_rowFullMulti_mp, hst]

/-- Witness for C5 on a concrete single-entry call: spikes `[0, 1, 0]` over
times `[0, 1, 2]` produce markers exactly at time `1`. -/
theorem plot_results_spike_markers_spot :
    ∃ pre : List AxEvent,
      axEventsAt 0 1 (plot_results [("A", demoRow)] [("A", demoParams)] ylimZero).1 =
        pre ++ [AxEvent.vlines (maskFilter [0, 1, 2] ([0, 1, 0].map (fun v => v != 0)))
          (ylimZero pre).1 (ylimZero pre).2 "r"] ∧
      ∀ xs lo hi c, AxEvent.vlines xs lo hi c ∉ pre :=
  plot_results_spike_markers [("A", demoRow)] [("A", demoParams)] ylimZero
    (by decide)
    (by
      intro e he
      rcases List.mem_singleton.mp he with rfl
      exact ⟨demoParams, rfl⟩)
    0 (by decide) [0, 1, 2] [0, 1, 0] rfl rfl

/-- C10: in both branches `plot_results` evaluates `spikes.bool()` and
indexes `time` with the result, so a run that raises no exception had
tensor-typed `time` and `spikes` in every row; and even with every label
present in `param_sets`, a leading row whose `spikes` is a plain list fails
with `AttributeError`, and one whose `spikes` is a tensor but whose `time`
is a plain list fails with `TypeError`. -/
theorem plot_results_requires_tensors (results : List (String × SimResult))
    (param_sets : List (String × ParamSet)) (ylim : YlimOracle)
    (hp : ∀ e ∈ results, ∃ p, dictGet param_sets e.1 = Except.ok p) :
    ((plot_results results param_sets ylim).2 = none →
      ∀ e ∈ results,
        (∃ tv, e.2.time = PySeq.tensor tv) ∧ ∃ sv, e.2.spikes = PySeq.tensor sv) ∧
    (∀ label r rest, results = (label, r) :: rest →
      (∀ sv, r.spikes = PySeq.pylist sv →
        (plot_results results param_sets ylim).2 = some PyErr.attributeError) ∧
      (∀ tv sv, r.time = PySeq.pylist tv → r.spikes = PySeq.tensor sv →
        (plot_results results param_sets ylim).2 = some PyErr.typeError)) := by
  constructor
  · intro hnone e he
    rcases results with _ | ⟨⟨label, r⟩, rest⟩
    · simp at he
    rcases rest with _ | ⟨b, t⟩
    · rcases List.mem_singleton.mp he with rfl
      rcases hstep : stepRowSingle param_sets ylim label r with ⟨evs, err⟩
      cases err with
      | some e' =>
        simp only [plot_results, hstep] at hnone
        cases hnone
      | none =>
        exact stepRowSingle_none_tensors param_sets ylim label r (by rw [hstep])
    · rw [plot_results_cons_cons] at hnone
      exact plotResultsGo_none_tensors param_sets ylim ((label, r) :: b :: t) 0 []
        hnone e he
  · rintro label r rest rfl
    obtain ⟨p, hpl⟩ := hp _ (List.mem_cons_self _ _)
    constructor
    · intro sv hsv
      rcases rest with _ | ⟨b, t⟩
      · simp [plot_results, stepRowSingle, hpl, hsv, PySeq.boolMethod]
      · rw [plot_results_cons_cons]
        simp [plotResultsGo, stepRowMulti, hpl, hsv, PySeq.boolMethod]
    · intro tv sv htv hsv
      rcases rest with _ | ⟨b, t⟩
      · simp [plot_results, stepRowSingle, hpl, htv, hsv, PySeq.boolMethod,
          PySeq.maskIndex]
      · rw [plot_results_cons_cons]
        simp [plotResultsGo, stepRowMulti, hpl, htv, hsv, PySeq.boolMethod,
          PySeq.maskIndex]

/-- Witness for C10: a single-entry call whose `spikes` is a plain Python
list fails with `AttributeError` although the label's parameters exist. -/
theorem plot_results_requires_tensors_spot :
    (plot_results [("A", listSpikesRow)] [("A", demoParams)] ylimZero).2 =
      some PyErr.attributeError :=
  ((plot_results_requires_tensors [("A", listSpikesRow)] [("A", demoParams)] ylimZero
    (by
      intro e he
      rcases List.mem_singleton.mp he with rfl
      exact ⟨demoParams, rfl⟩)).2 "A" listSpikesRow [] rfl).1 [0, 1, 0] rfl

end LIFRC
